import Mathlib

/-!
Shallow embedding of the authenticated API client and route guard of the
demo-frontend-integration repository.

Embedded source files:
* `src/unnamed/part_008` — the axios instance with a request interceptor
  (attaches a Bearer token read from local storage) and a response
  interceptor (one-shot token refresh on a 401 response).
* `src/src/components/ProtectedRoute.jsx` — `isTokenValid`, the route-guard
  predicate over a stored JWT.
* `src/src/components/LoginForm.jsx` — `handleSubmit`, which stores the
  token returned by a successful login.
* the auth service bundled with `src/src/pages/Login.jsx` — `logout`,
  which removes the stored token after a successful logout call.

External library behaviour (axios transport outcomes, the jwt-decode
decoder, browser local storage, JS string coercion of plain objects) is
modelled as explicit parameters and small total functions; the code of the
repository itself is translated line by line.
-/

namespace DemoFrontend

/-- The browser local storage, restricted to the keys this code reads or
writes: `token`, `refreshToken` and `accessToken`.  `none` models an
absent key (`localStorage.getItem` returning `null`). -/
structure Storage where
  token : Option String
  refreshToken : Option String
  accessToken : Option String
deriving Repr, DecidableEq

/-- The decoded JWT payload, as far as the guard inspects it: only the
`exp` claim (seconds since epoch), which may be absent (`none` models the
claim being `undefined` on the decoded object). -/
structure JwtPayload where
  exp : Option Int
deriving Repr, DecidableEq

/-- `isTokenValid` from `src/src/components/ProtectedRoute.jsx` lines 4-12.

```js
const isTokenValid = (token) => {
  if (!token) return false;
  try {
    const decoded = jwtDecode(token);
    return decoded.exp * 1000 > Date.now();
  } catch {
    return false;
  }
};
```

`decode` models the external `jwtDecode`: `none` means the decoder threw
(malformed token), `some p` means it returned payload `p`.  `now` is
`Date.now()` in milliseconds.  The input is `Option String` because
`localStorage.getItem` yields a string or `null`; `!token` is true for
`null` and for the empty string.  When the decoded payload has no `exp`
claim, the JS expression `decoded.exp * 1000 > Date.now()` evaluates
`undefined * 1000` to `NaN`, and every comparison with `NaN` is false. -/
def isTokenValid (decode : String → Option JwtPayload) (now : Int) :
    Option String → Bool
  | none => false
  | some t =>
    if t = "" then false
    else
      match decode t with
      | none => false
      | some decoded =>
        match decoded.exp with
        | none => false
        | some e => decide (e * 1000 > now)

/-- Render outcome of the `ProtectedRoute` component. -/
inductive RouteRender where
  | children
  | redirectToLogin
deriving Repr, DecidableEq

/-- `ProtectedRoute` from `src/src/components/ProtectedRoute.jsx` lines
14-18: reads the `token` key from storage and either renders its children
or navigates to `/login`. -/
def protectedRoute (decode : String → Option JwtPayload) (now : Int)
    (st : Storage) : RouteRender :=
  if isTokenValid decode now st.token then .children else .redirectToLogin

/-- C3: for every stored token whose payload decodes successfully and
carries an `exp` claim, `isTokenValid` returns true iff `exp` (seconds
since epoch) times 1000 is strictly greater than the current time in
milliseconds; in particular it returns false whenever `exp * 1000` is not
in the future. -/
theorem c3_isTokenValid_exp_iff (decode : String → Option JwtPayload)
    (now : Int) (t : String) (p : JwtPayload) (e : Int)
    (ht : t ≠ "") (hd : decode t = some p) (he : p.exp = some e) :
    (isTokenValid decode now (some t) = true ↔ e * 1000 > now) ∧
    (e * 1000 ≤ now → isTokenValid decode now (some t) = false) := by
  constructor
  · simp [isTokenValid, ht, hd, he]
  · intro hle
    simp [isTokenValid, ht, hd, he]
    omega

/-- Witness for C3 at a concrete decoder, token and clock. -/
theorem c3_isTokenValid_exp_iff_witness :
    (isTokenValid (fun _ => some ⟨some 100⟩) 50000 (some "a.b.c") = true ↔
      (100 : Int) * 1000 > 50000) ∧
    ((100 : Int) * 1000 ≤ 50000 →
      isTokenValid (fun _ => some ⟨some 100⟩) 50000 (some "a.b.c") = false) :=
  c3_isTokenValid_exp_iff (fun _ => some ⟨some 100⟩) 50000 "a.b.c"
    ⟨some 100⟩ 100 (by decide) rfl rfl

/-- C7: the guard predicate is total at its public interface: it returns
false on an absent (`null`) token and on any token whose decoding throws,
and being a total Lean function it never raises an exception. -/
theorem c7_isTokenValid_total (decode : String → Option JwtPayload)
    (now : Int) (t : String) (hmal : decode t = none) :
    isTokenValid decode now none = false ∧
    isTokenValid decode now (some t) = false := by
  refine ⟨rfl, ?_⟩
  by_cases ht : t = ""
  · simp [isTokenValid, ht]
  · simp [isTokenValid, ht, hmal]

/-- Witness for C7 with a decoder that throws on every input, applied to
the literal malformed token of the spec scenario. -/
theorem c7_isTokenValid_total_witness :
    isTokenValid (fun _ => none) 0 none = false ∧
    isTokenValid (fun _ => none) 0 (some "not-a-jwt") = false :=
  c7_isTokenValid_total (fun _ => none) 0 "not-a-jwt" rfl

/-- C10: a token that decodes to a payload with no `exp` claim is rejected:
`decoded.exp * 1000 > Date.now()` evaluates to `NaN > now`, which is
false, and no exception escapes. -/
theorem c10_isTokenValid_missing_exp (decode : String → Option JwtPayload)
    (now : Int) (t : String) (p : JwtPayload)
    (hd : decode t = some p) (he : p.exp = none) :
    isTokenValid decode now (some t) = false := by
  by_cases ht : t = ""
  · simp [isTokenValid, ht]
  · simp [isTokenValid, ht, hd, he]

/-- Witness for C10 with a decoder yielding an `exp`-free payload. -/
theorem c10_isTokenValid_missing_exp_witness :
    isTokenValid (fun _ => some ⟨none⟩) 12345 (some "x.y.z") = false :=
  c10_isTokenValid_missing_exp (fun _ => some ⟨none⟩) 12345 "x.y.z"
    ⟨none⟩ rfl rfl

/-- An HTTP response as the client sees it: a status code and an opaque
body.  The client code of `part_008` never parses the body of the refresh
response, so a single opaque `data` string suffices. -/
structure Response where
  status : Nat
  data : String
deriving Repr, DecidableEq

/-- Outcome of one network call as axios reports it: fulfilled with a
response (status accepted by the default `validateStatus`, i.e. 2xx),
rejected with an error that carries the non-2xx response, or rejected
with a network error that carries no response at all
(`error.response === undefined`). -/
inductive HttpOutcome where
  | ok (resp : Response)
  | httpError (resp : Response)
  | networkError
deriving Repr, DecidableEq

/-- A value a JS promise can be rejected with, as used by this client:
an axios error carrying a response, an axios network error carrying no
response, or an exception thrown inside the client code itself (the
`Error` thrown on a non-200 refresh status, or the `TypeError` raised by
dereferencing `error.response.status` when `error.response` is
undefined). -/
inductive JsError where
  | http (resp : Response)
  | network
  | jsException (msg : String)
deriving Repr, DecidableEq

deriving instance DecidableEq for Except

/-- The request config, restricted to the fields the interceptors touch:
the `Authorization` header and the `_retry` marker (`false` models the
property being absent).  Method, URL and body are opaque to both
interceptors and are not modelled. -/
structure Request where
  authorization : Option String
  retry : Bool
deriving Repr, DecidableEq

/-- JS string coercion of an axios response object, as performed by
`localStorage.setItem('accessToken', newToken)` and by the template
literal `Bearer ${newToken}` in `part_008` lines 41-42: a plain object
with no custom `toString` coerces to the string `[object Object]`. -/
def jsStringOfResponse (_ : Response) : String := "[object Object]"

/-- The request interceptor of `part_008` lines 12-23.

```js
const token = localStorage.getItem('token');
if (token) {
  config.headers['Authorization'] = `Bearer ${token}`;
}
return config;
```

Reads storage key `token`; when truthy (present and nonempty) it sets the
`Authorization` header; otherwise the config passes through unchanged. -/
def requestInterceptor (st : Storage) (req : Request) : Request :=
  match st.token with
  | some tok =>
    if tok = "" then req
    else { req with authorization := some ("Bearer " ++ tok) }
  | none => req

/-- Everything observable about one call through the `api` instance: the
value the promise settles with, the final storage, the list of
client-side redirect targets assigned to `window.location.href`, the
number of refresh calls posted to the refresh endpoint, the number of
times the logical request was sent over the network, and the
`Authorization` header of each of those sends in order. -/
structure ClientResult where
  outcome : Except JsError Response
  storage : Storage
  redirects : List String
  refreshCalls : Nat
  sends : Nat
  sentAuths : List (Option String)
deriving Repr, DecidableEq

/-- One call of `api(request)` from `part_008`, fuelled.

`transport n` is the outcome the network gives the n-th send of this
logical request, and `refreshO n` the outcome of the n-th
`axios.post(BASE_URI + /auth/refresh, ...)` (a bare axios call, so no
interceptor applies to it).  `gas` bounds the recursion through
`return api(originalRequest)`; the `_retry` marker makes depth 2
sufficient, which `runApi_gas_independent` below proves.

Line-by-line, for `gas > 0`:
* the request interceptor runs on the config (lines 12-23);
* a fulfilled response passes through the identity handler
  `(response) => response` (line 27);
* the rejection handler (lines 28-52) reads `error.config` and evaluates
  `error.response.status`; when the error carries no response this
  dereference of `undefined` throws a `TypeError`, which rejects the
  promise of the caller;
* on a 401 whose config is not yet marked `_retry`, the config is marked
  and a refresh is posted with the stored `refreshToken` (lines 31-37);
* a fulfilled refresh with status other than 200 throws
  `Error('Failed to refresh token')` into the catch block (lines 38-40);
* a fulfilled refresh with status 200 writes the coerced response object
  under storage key `accessToken`, sets the Authorization header of the
  config from the same coercion, and re-dispatches through
  `api(originalRequest)`, returning that result (lines 41-43);
* the catch block removes storage key `accessToken`, assigns
  `/login` to `window.location.href`, and rejects with the refresh error
  (lines 44-48);
* every other error is rejected unchanged (line 51). -/
def runApi (transport refreshO : Nat → HttpOutcome) :
    Nat → Storage → Request → Nat → Nat → ClientResult
  | 0, st, _, _, _ =>
    ⟨.error (.jsException "stackOverflow"), st, [], 0, 0, []⟩
  | gas + 1, st, req0, sendIdx, refIdx =>
    let req := requestInterceptor st req0
    match transport sendIdx with
    | .ok resp => ⟨.ok resp, st, [], 0, 1, [req.authorization]⟩
    | .networkError =>
      ⟨.error (.jsException "TypeError"), st, [], 0, 1, [req.authorization]⟩
    | .httpError r =>
      if r.status = 401 ∧ req.retry = false then
        match refreshO refIdx with
        | .ok rresp =>
          if rresp.status ≠ 200 then
            ⟨.error (.jsException "Failed to refresh token"),
              { st with accessToken := none }, ["/login"], 1, 1,
              [req.authorization]⟩
          else
            let st2 := { st with
              accessToken := some (jsStringOfResponse rresp) }
            let req2 := { req with
              retry := true
              authorization := some ("Bearer " ++ jsStringOfResponse rresp) }
            let retried := runApi transport refreshO gas st2 req2
              (sendIdx + 1) (refIdx + 1)
            { retried with
              refreshCalls := retried.refreshCalls + 1
              sends := retried.sends + 1
              sentAuths := req.authorization :: retried.sentAuths }
        | .httpError rr =>
          ⟨.error (.http rr), { st with accessToken := none },
            ["/login"], 1, 1, [req.authorization]⟩
        | .networkError =>
          ⟨.error .network, { st with accessToken := none },
            ["/login"], 1, 1, [req.authorization]⟩
      else
        ⟨.error (.http r), st, [], 0, 1, [req.authorization]⟩

/-- The public entry point `api(request)`: fuel 2 is exact, as the
`_retry` marker stops the recursion after one re-dispatch. -/
def api (transport refreshO : Nat → HttpOutcome) (st : Storage)
    (req : Request) : ClientResult :=
  runApi transport refreshO 2 st req 0 0

theorem requestInterceptor_retry (st : Storage) (req : Request) :
    (requestInterceptor st req).retry = req.retry := by
  unfold requestInterceptor
  cases st.token with
  | none => rfl
  | some tok => by_cases h : tok = "" <;> simp [h]

theorem runApi_retried_gas (transport refreshO : Nat → HttpOutcome)
    (st : Storage) (req : Request) (i j g : Nat)
    (hreq : req.retry = true) :
    runApi transport refreshO (g + 1) st req i j =
      runApi transport refreshO 1 st req i j := by
  have hr : (requestInterceptor st req).retry = true := by
    rw [requestInterceptor_retry]; exact hreq
  unfold runApi
  cases transport i with
  | ok resp => rfl
  | networkError => rfl
  | httpError r => simp [hr]

/-- Any fuel beyond 2 is never consumed: the one-shot `_retry` marker
bounds the recursion, so the fuelled model is exact at fuel 2. -/
theorem runApi_gas_independent (transport refreshO : Nat → HttpOutcome)
    (st : Storage) (req : Request) (i j g : Nat) :
    runApi transport refreshO (g + 2) st req i j =
      runApi transport refreshO 2 st req i j := by
  by_cases hreq : req.retry = true
  · rw [show g + 2 = (g + 1) + 1 from rfl,
      runApi_retried_gas transport refreshO st req i j (g + 1) hreq,
      show (2 : Nat) = 1 + 1 from rfl,
      runApi_retried_gas transport refreshO st req i j 1 hreq]
  · unfold runApi
    cases transport i with
    | ok resp => rfl
    | networkError => rfl
    | httpError r =>
      by_cases h401 : r.status = 401 ∧ (requestInterceptor st req).retry = false
      · simp only [h401, and_self, if_pos]
        cases refreshO j with
        | ok rresp =>
          by_cases hs : rresp.status = 200
          · simp only [hs]
            rw [runApi_retried_gas transport refreshO _ _ _ _ g rfl,
              runApi_retried_gas transport refreshO _ _ _ _ 0 rfl]
          · simp [hs]
        | httpError rr => rfl
        | networkError => rfl
      · simp [h401]

/-- The parsed body of a login response: the `token` field and the
`message` field, either of which may be absent. -/
structure LoginResponse where
  token : Option String
  message : Option String
deriving Repr, DecidableEq

/-- A user-visible side effect of the login form handler. -/
inductive UiEffect where
  | toastError (msg : String)
  | navigate (path : String)
deriving Repr, DecidableEq

/-- JS `a || b` on a string that may be absent: `undefined` and the empty
string are falsy, so they fall through to the default. -/
def jsOrDefault : Option String → String → String
  | none, d => d
  | some s, d => if s = "" then d else s

/-- `handleSubmit` from `src/src/components/LoginForm.jsx` lines 16-38.

```js
if (!username || !password) { toast.error('Please fill in all fields.'); return; }
try {
  const response = await login(username, password);
  if (response.token) {
    localStorage.setItem('token', response.token);
    navigate('/dashboard');
  } else {
    toast.error(response.message || 'Login failed. Please try again.');
  }
} catch (err) { toast.error(err.message || 'An error occurred. ...'); }
```

`loginResult` models the awaited `login(username, password)` call:
`Except.error m` is a thrown error with message `m`.  The handler mutates
storage only on the truthy-token branch. -/
def handleSubmit (st : Storage) (username password : String)
    (loginResult : Except (Option String) LoginResponse) :
    Storage × List UiEffect :=
  if username = "" ∨ password = "" then
    (st, [.toastError "Please fill in all fields."])
  else
    match loginResult with
    | .ok response =>
      match response.token with
      | some tok =>
        if tok = "" then
          (st, [.toastError
            (jsOrDefault response.message "Login failed. Please try again.")])
        else
          ({ st with token := some tok }, [.navigate "/dashboard"])
      | none =>
        (st, [.toastError
          (jsOrDefault response.message "Login failed. Please try again.")])
    | .error errMsg =>
      (st, [.toastError
        (jsOrDefault errMsg "An error occurred. Please try again later.")])

/-- `logout` from the auth service bundled with `src/src/pages/Login.jsx`.

```js
try {
  const response = await api.post('v1/auth/logout');
  localStorage.removeItem('token');
  return response.data;
} catch (error) { throw error.response.data; }
```

`apiResult` models the awaited `api.post` call.  On success the `token`
key is removed and the response body returned; on failure the handler
rethrows `error.response.data` (which itself dereferences `undefined`
and raises a `TypeError` when the error carries no response) and leaves
storage untouched. -/
def logout (st : Storage) (apiResult : Except JsError Response) :
    Storage × Except JsError String :=
  match apiResult with
  | .ok resp => ({ st with token := none }, .ok resp.data)
  | .error (.http r) => (st, .error (.jsException r.data))
  | .error _ => (st, .error (.jsException "TypeError"))

/-- Spec-side definition for the pass-through contract: what a client
that performs no retry, no refresh and no transformation hands back to
the caller for a given transport outcome. -/
def passThrough : HttpOutcome → Except JsError Response
  | .ok r => .ok r
  | .httpError r => .error (.http r)
  | .networkError => .error .network

theorem api_sentAuths_head (transport refreshO : Nat → HttpOutcome)
    (st : Storage) (req : Request) :
    (api transport refreshO st req).sentAuths.head? =
      some (requestInterceptor st req).authorization := by
  unfold api runApi
  cases transport 0 with
  | ok resp => rfl
  | networkError => rfl
  | httpError r =>
    by_cases h : r.status = 401 ∧ (requestInterceptor st req).retry = false
    · simp only [h, and_self, if_pos]
      cases refreshO 0 with
      | ok rresp =>
        by_cases hs : rresp.status = 200 <;> simp [hs]
      | httpError rr => rfl
      | networkError => rfl
    · simp [h]

theorem runApi_refreshCalls_retried (transport refreshO : Nat → HttpOutcome)
    (st : Storage) (req : Request) (i j g : Nat)
    (hreq : req.retry = true) :
    (runApi transport refreshO g st req i j).refreshCalls = 0 := by
  have hr : (requestInterceptor st req).retry = true := by
    rw [requestInterceptor_retry]; exact hreq
  cases g with
  | zero => rfl
  | succ g =>
    unfold runApi
    cases transport i with
    | ok resp => rfl
    | networkError => rfl
    | httpError r => simp [hr]

/-- For every run, at most one refresh call is posted: the only branch
that refreshes marks the config `_retry`, and a marked config never
refreshes again. -/
theorem runApi_refreshCalls_le_one (transport refreshO : Nat → HttpOutcome)
    (st : Storage) (req : Request) (i j g : Nat) :
    (runApi transport refreshO g st req i j).refreshCalls ≤ 1 := by
  cases g with
  | zero => exact Nat.le_succ 0
  | succ g =>
    unfold runApi
    cases transport i with
    | ok resp => exact Nat.le_succ 0
    | networkError => exact Nat.le_succ 0
    | httpError r =>
      by_cases h : r.status = 401 ∧ (requestInterceptor st req).retry = false
      · simp only [h, and_self, if_pos]
        cases refreshO j with
        | ok rresp =>
          by_cases hs : rresp.status = 200
          · simp only [hs]
            simp only [ne_eq, not_true_eq_false, if_neg, if_false]
            rw [runApi_refreshCalls_retried transport refreshO _ _ _ _ g rfl]
          · simp [hs]
        | httpError rr => simp
        | networkError => simp
      · simp [h]

/-- C4: at most one refresh per original request.  When the first send
yields 401, the refresh succeeds with status 200, and the retried send
yields 401 again, exactly one refresh call is made, the second 401 error
is rejected to the caller as-is, exactly two sends happen, and any fuel
beyond 2 gives the same result (no infinite retry loop); moreover every
run whatsoever makes at most one refresh call. -/
theorem c4_at_most_one_refresh (transport refreshO : Nat → HttpOutcome)
    (st : Storage) (req : Request) (r0 rr r1 : Response)
    (hreq : req.retry = false)
    (h0 : transport 0 = .httpError r0) (h0s : r0.status = 401)
    (hrf : refreshO 0 = .ok rr) (hrs : rr.status = 200)
    (h1 : transport 1 = .httpError r1) (h1s : r1.status = 401) :
    (api transport refreshO st req).refreshCalls = 1 ∧
    (api transport refreshO st req).outcome = .error (.http r1) ∧
    (api transport refreshO st req).sends = 2 ∧
    (∀ g, runApi transport refreshO (g + 2) st req 0 0 =
      api transport refreshO st req) ∧
    (∀ (t2 r2 : Nat → HttpOutcome) (s2 : Storage) (q2 : Request) (g : Nat),
      (runApi t2 r2 g s2 q2 0 0).refreshCalls ≤ 1) := by
  have hr : (requestInterceptor st req).retry = false := by
    rw [requestInterceptor_retry]; exact hreq
  have hr2 : ∀ (s2 : Storage) (q2 : Request), q2.retry = true →
      (requestInterceptor s2 q2).retry = true := by
    intro s2 q2 h
    rw [requestInterceptor_retry]; exact h
  refine ⟨?_, ?_, ?_,
    fun g => runApi_gas_independent transport refreshO st req 0 0 g,
    fun t2 r2 s2 q2 g => runApi_refreshCalls_le_one t2 r2 s2 q2 0 0 g⟩ <;>
  · unfold api runApi
    rw [h0]
    simp only [h0s, hr, and_self, if_pos, hrf, hrs, ne_eq, not_true_eq_false,
      if_neg, if_false]
    unfold runApi
    rw [h1]
    simp [hr2, h1s]

/-- C5: any response with a status other than 401, fulfilled or rejected,
is passed through unmodified: the outcome is exactly the transport
outcome, storage is untouched, and there is no redirect, no refresh and
no second send. -/
theorem c5_non401_pass_through (transport refreshO : Nat → HttpOutcome)
    (st : Storage) (req : Request) (resp : Response)
    (hs : resp.status ≠ 401)
    (h : transport 0 = .ok resp ∨ transport 0 = .httpError resp) :
    (api transport refreshO st req).outcome = passThrough (transport 0) ∧
    (api transport refreshO st req).storage = st ∧
    (api transport refreshO st req).redirects = [] ∧
    (api transport refreshO st req).refreshCalls = 0 ∧
    (api transport refreshO st req).sends = 1 := by
  cases h with
  | inl h => unfold api runApi; rw [h]; simp [passThrough]
  | inr h => unfold api runApi; rw [h]; simp [passThrough, hs]

/-- Witness for C5 at a concrete 500 response. -/
theorem c5_non401_pass_through_witness :
    (api (fun _ => .httpError ⟨500, "Server Error"⟩) (fun _ => .networkError)
        ⟨some "old-token", some "refresh-token", none⟩ ⟨none, false⟩).outcome =
      passThrough ((fun _ => .httpError ⟨500, "Server Error"⟩ :
        Nat → HttpOutcome) 0) ∧
    (api (fun _ => .httpError ⟨500, "Server Error"⟩) (fun _ => .networkError)
        ⟨some "old-token", some "refresh-token", none⟩ ⟨none, false⟩).storage =
      ⟨some "old-token", some "refresh-token", none⟩ ∧
    (api (fun _ => .httpError ⟨500, "Server Error"⟩) (fun _ => .networkError)
        ⟨some "old-token", some "refresh-token", none⟩ ⟨none, false⟩).redirects
      = [] ∧
    (api (fun _ => .httpError ⟨500, "Server Error"⟩) (fun _ => .networkError)
        ⟨some "old-token", some "refresh-token", none⟩
        ⟨none, false⟩).refreshCalls = 0 ∧
    (api (fun _ => .httpError ⟨500, "Server Error"⟩) (fun _ => .networkError)
        ⟨some "old-token", some "refresh-token", none⟩ ⟨none, false⟩).sends =
      1 :=
  c5_non401_pass_through (fun _ => .httpError ⟨500, "Server Error"⟩)
    (fun _ => .networkError) ⟨some "old-token", some "refresh-token", none⟩
    ⟨none, false⟩ ⟨500, "Server Error"⟩ (by decide) (Or.inr rfl)

/-- C9: a request that fails with no HTTP response at all is rejected
with the `TypeError` raised by dereferencing `error.response.status`
inside the interceptor, not with the original network error that a
pass-through client would report. -/
theorem c9_network_error_rejects_typeerror
    (transport refreshO : Nat → HttpOutcome) (st : Storage) (req : Request)
    (h : transport 0 = .networkError) :
    (api transport refreshO st req).outcome =
      .error (.jsException "TypeError") ∧
    (api transport refreshO st req).outcome ≠ .error .network ∧
    passThrough (transport 0) = .error .network ∧
    (api transport refreshO st req).storage = st ∧
    (api transport refreshO st req).refreshCalls = 0 := by
  unfold api runApi
  rw [h]
  simp [passThrough]

/-- Witness for C9 at a concrete transport that drops the request. -/
theorem c9_network_error_rejects_typeerror_witness :
    (api (fun _ => .networkError) (fun _ => .networkError)
        ⟨some "old-token", none, none⟩ ⟨none, false⟩).outcome =
      .error (.jsException "TypeError") ∧
    (api (fun _ => .networkError) (fun _ => .networkError)
        ⟨some "old-token", none, none⟩ ⟨none, false⟩).outcome ≠
      .error .network ∧
    passThrough ((fun _ => .networkError : Nat → HttpOutcome) 0) =
      .error .network ∧
    (api (fun _ => .networkError) (fun _ => .networkError)
        ⟨some "old-token", none, none⟩ ⟨none, false⟩).storage =
      ⟨some "old-token", none, none⟩ ∧
    (api (fun _ => .networkError) (fun _ => .networkError)
        ⟨some "old-token", none, none⟩ ⟨none, false⟩).refreshCalls = 0 :=
  c9_network_error_rejects_typeerror (fun _ => .networkError)
    (fun _ => .networkError) ⟨some "old-token", none, none⟩ ⟨none, false⟩ rfl

/-- A storage state as left by a successful login with token
`old-token`, with a refresh token present and no `accessToken` key. -/
def demoStorage : Storage :=
  ⟨some "old-token", some "refresh-token", none⟩

/-- A fresh request config: no Authorization header yet, `_retry`
absent. -/
def freshRequest : Request := ⟨none, false⟩

/-- A transport that answers the first send with 401 and every later
send with 200. -/
def tr401ThenOk : Nat → HttpOutcome
  | 0 => .httpError ⟨401, "Unauthorized"⟩
  | _ => .ok ⟨200, "pokemons"⟩

/-- A transport that answers every send with 401. -/
def tr401Always : Nat → HttpOutcome :=
  fun _ => .httpError ⟨401, "Unauthorized"⟩

/-- A refresh endpoint that succeeds with status 200 and a body holding
the newly issued token string. -/
def refreshOk200 : Nat → HttpOutcome :=
  fun _ => .ok ⟨200, "fresh.jwt.token"⟩

/-- A refresh endpoint that fails with a network error. -/
def refreshNetworkFail : Nat → HttpOutcome :=
  fun _ => .networkError

/-- Witness for C4: 401 twice in a row with a succeeding refresh, on the
concrete demo state. -/
theorem c4_at_most_one_refresh_witness :
    (api tr401Always refreshOk200 demoStorage freshRequest).refreshCalls =
      1 ∧
    (api tr401Always refreshOk200 demoStorage freshRequest).outcome =
      .error (.http ⟨401, "Unauthorized"⟩) ∧
    (api tr401Always refreshOk200 demoStorage freshRequest).sends = 2 ∧
    (∀ g, runApi tr401Always refreshOk200 (g + 2) demoStorage freshRequest
      0 0 = api tr401Always refreshOk200 demoStorage freshRequest) ∧
    (∀ (t2 r2 : Nat → HttpOutcome) (s2 : Storage) (q2 : Request) (g : Nat),
      (runApi t2 r2 g s2 q2 0 0).refreshCalls ≤ 1) :=
  c4_at_most_one_refresh tr401Always refreshOk200 demoStorage freshRequest
    ⟨401, "Unauthorized"⟩ ⟨200, "fresh.jwt.token"⟩ ⟨401, "Unauthorized"⟩
    rfl rfl rfl rfl rfl rfl rfl

/-- C1, evaluated at its failing input (request answered 401 once, then
200; refresh fulfilled with status 200 and a body carrying the new
token).  The code re-dispatches exactly once and returns the retried
result, but it does not overwrite the token the request interceptor
reads: storage key `token` still holds the old token, the refresh
response object is stored as the coerced string `[object Object]` under
the unrelated key `accessToken`, and both sends of the request carry
`Bearer old-token` because the request interceptor re-reads key `token`
on the re-dispatch. -/
theorem c1_refresh_success_does_not_overwrite_token :
    (api tr401ThenOk refreshOk200 demoStorage freshRequest).storage.token =
      some "old-token" ∧
    (api tr401ThenOk refreshOk200 demoStorage
      freshRequest).storage.accessToken = some "[object Object]" ∧
    (api tr401ThenOk refreshOk200 demoStorage freshRequest).sentAuths =
      [some "Bearer old-token", some "Bearer old-token"] ∧
    (api tr401ThenOk refreshOk200 demoStorage freshRequest).sends = 2 ∧
    (api tr401ThenOk refreshOk200 demoStorage freshRequest).refreshCalls =
      1 ∧
    (api tr401ThenOk refreshOk200 demoStorage freshRequest).outcome =
      .ok ⟨200, "pokemons"⟩ := by
  refine ⟨rfl, rfl, rfl, rfl, rfl, rfl⟩

/-- C2, evaluated at its failing input (request answered 401, refresh
fails with a network error).  The redirect to `/login` fires exactly
once and the promise is rejected with the refresh error rather than the
original 401 — but the stored Access Token (key `token`, the key written
by login and read by the request interceptor) is not deleted; the code
removes the unrelated key `accessToken` instead. -/
theorem c2_refresh_failure_does_not_delete_token :
    (api tr401ThenOk refreshNetworkFail demoStorage
      freshRequest).storage.token = some "old-token" ∧
    (api tr401ThenOk refreshNetworkFail demoStorage
      freshRequest).storage.accessToken = none ∧
    (api tr401ThenOk refreshNetworkFail demoStorage freshRequest).redirects
      = ["/login"] ∧
    (api tr401ThenOk refreshNetworkFail demoStorage freshRequest).outcome =
      .error .network ∧
    (api tr401ThenOk refreshNetworkFail demoStorage freshRequest).outcome ≠
      .error (.http ⟨401, "Unauthorized"⟩) ∧
    (api tr401ThenOk refreshNetworkFail demoStorage
      freshRequest).refreshCalls = 1 := by
  refine ⟨rfl, rfl, rfl, rfl, ?_, rfl⟩
  decide

/-- C6: a successful login with a nonempty token string stores that
exact string under key `token`, and the request interceptor then
attaches `Authorization: Bearer <token>` to the next send — with no
expiry check, since the interceptor consults no clock — while with no
stored token the config passes through with its Authorization header
untouched. -/
theorem c6_login_stores_token_and_bearer_header
    (st st2 : Storage) (username password : String)
    (response : LoginResponse) (s : String)
    (transport refreshO : Nat → HttpOutcome) (req req2 : Request)
    (hu : username ≠ "") (hp : password ≠ "")
    (htok : response.token = some s) (hs : s ≠ "")
    (hst2 : st2.token = none) :
    (handleSubmit st username password (.ok response)).1.token = some s ∧
    (handleSubmit st username password (.ok response)).2 =
      [.navigate "/dashboard"] ∧
    (api transport refreshO
      (handleSubmit st username password (.ok response)).1 req).sentAuths.head?
      = some (some ("Bearer " ++ s)) ∧
    (api transport refreshO st2 req2).sentAuths.head? =
      some req2.authorization := by
  have h1 : (handleSubmit st username password (.ok response)).1 =
      { st with token := some s } := by
    simp [handleSubmit, hu, hp, htok, hs]
  have h2 : (handleSubmit st username password (.ok response)).2 =
      [.navigate "/dashboard"] := by
    simp [handleSubmit, hu, hp, htok, hs]
  refine ⟨by rw [h1], h2, ?_, ?_⟩
  · rw [h1, api_sentAuths_head]
    simp [requestInterceptor, hs]
  · rw [api_sentAuths_head]
    simp [requestInterceptor, hst2]

/-- Witness for C6 at the literal spec scenario: login response token
`abc.def.ghi`. -/
theorem c6_login_stores_token_and_bearer_header_witness :
    (handleSubmit ⟨none, none, none⟩ "ash" "pikachu"
      (.ok ⟨some "abc.def.ghi", none⟩)).1.token = some "abc.def.ghi" ∧
    (handleSubmit ⟨none, none, none⟩ "ash" "pikachu"
      (.ok ⟨some "abc.def.ghi", none⟩)).2 = [.navigate "/dashboard"] ∧
    (api tr401ThenOk refreshOk200
      (handleSubmit ⟨none, none, none⟩ "ash" "pikachu"
        (.ok ⟨some "abc.def.ghi", none⟩)).1 freshRequest).sentAuths.head? =
      some (some ("Bearer " ++ "abc.def.ghi")) ∧
    (api tr401ThenOk refreshOk200 ⟨none, some "refresh-token", none⟩
      freshRequest).sentAuths.head? = some freshRequest.authorization :=
  c6_login_stores_token_and_bearer_header ⟨none, none, none⟩
    ⟨none, some "refresh-token", none⟩ "ash" "pikachu"
    ⟨some "abc.def.ghi", none⟩ "abc.def.ghi" tr401ThenOk refreshOk200
    freshRequest freshRequest (by decide) (by decide) rfl (by decide) rfl

/-- C8: a logout whose network call completes successfully removes the
stored Access Token under key `token` and returns the response body; the
other storage keys are untouched. -/
theorem c8_logout_removes_token (st : Storage) (resp : Response) :
    (logout st (.ok resp)).1.token = none ∧
    (logout st (.ok resp)).1.refreshToken = st.refreshToken ∧
    (logout st (.ok resp)).2 = .ok resp.data := by
  simp [logout]

end DemoFrontend
